import Mathlib

/-!
Verification of the CloudCover masking engine
(`Cloud Detection/cloud_detection.py`).

The three core operations `create_cloud_mask`, `measure_cloud_cover` and
`apply_cloud_mask` are shallowly embedded below.  Numpy arrays are modelled
as a shape together with an indexing function into ℚ (radiance values are
"floating or integer"; the operations only compare, copy, sum and divide
them, so exact rationals are a faithful carrier).  Numpy's observable
behaviours that the source relies on are modelled explicitly:

* indexing with an integer `i` into an axis of size `n` succeeds for
  `-n ≤ i < n` (negative indices wrap to `n + i`) and raises `IndexError`
  otherwise — modelled by `resolveBand` / the `NpError.indexError` branch;
* `np.int64 0 / 0` does not raise: it emits a RuntimeWarning and yields
  `nan` — modelled by `NpFloat` (`Option ℚ`, where `none` stands for nan).

Fallible operations return `Except NpError _`.
-/

/-- The only exception the source's array accesses can raise: numpy's
`IndexError` (an index outside `[-n, n)` on an axis of size `n`). -/
inductive NpError where
  | indexError
deriving DecidableEq

/-- A hyperspectral datacube: a 3-D numpy array with dimensions
(rows, cols, bands), modelled as the shape plus an indexing function. -/
@[ext]
structure Cube where
  rows : Nat
  cols : Nat
  bands : Nat
  data : Nat → Nat → Nat → ℚ

/-- A 2-D numpy array (a cloud mask): shape (rows, cols) plus an indexing
function.  Entries are not restricted to {0, 1} by the type, mirroring the
source, which never validates binariness. -/
@[ext]
structure Mask where
  rows : Nat
  cols : Nat
  data : Nat → Nat → ℚ

/-- Numpy integer indexing into an axis of size `size`: `i` in `[0, size)`
is taken as is, `i` in `[-size, 0)` wraps to `size + i`, anything else is
an `IndexError` (`none`). -/
def resolveBand (size : Nat) (i : Int) : Option Nat :=
  if 0 ≤ i ∧ i < (size : Int) then some i.toNat
  else if -(size : Int) ≤ i ∧ i < 0 then some ((size : Int) + i).toNat
  else none

/-- The value `radiance_data[r, c, band]` reads once `band` resolves;
junk 0 when it does not (that case only arises when the loops of
`create_cloud_mask` never execute, so the value is never used). -/
def bandValue (cube : Cube) (band : Int) (r c : Nat) : ℚ :=
  match resolveBand cube.bands band with
  | some b => cube.data r c b
  | none => 0

/-- The mask array `create_cloud_mask` builds: `np.zeros((rows, cols))`
followed by the double loop writing
`1 if radiance_data[row, col, band] > threshold else 0` at every in-range
position (out-of-range indices keep the initial 0). -/
def mkMask (cube : Cube) (band : Int) (threshold : ℚ) : Mask :=
  ⟨cube.rows, cube.cols, fun r c =>
    if r < cube.rows ∧ c < cube.cols ∧ bandValue cube band r c > threshold
    then 1 else 0⟩

/-- `create_cloud_mask(radiance_data, band, threshold)`
(cloud_detection.py, lines 126–157).  The double loop's only fallible
access is `radiance_data[row, col, band]`: it raises `IndexError` exactly
when the loop body runs at least once (rows ≠ 0 and cols ≠ 0) and `band`
does not resolve against the third axis; otherwise the loop fills the mask
with the strict comparisons. -/
def create_cloud_mask (cube : Cube) (band : Int) (threshold : ℚ) :
    Except NpError Mask :=
  if cube.rows ≠ 0 ∧ cube.cols ≠ 0 ∧ resolveBand cube.bands band = none
  then .error .indexError
  else .ok (mkMask cube band threshold)

/-- numpy's floating scalar results: `none` stands for `nan`. -/
def NpFloat := Option ℚ
deriving DecidableEq

/-- `np.sum(cloud_mask)`: the sum of all entries of the 2-D array. -/
def maskSum (m : Mask) : ℚ :=
  ∑ r in Finset.range m.rows, ∑ c in Finset.range m.cols, m.data r c

/-- `measure_cloud_cover(cloud_mask)` (cloud_detection.py, lines 159–179):
`np.sum(cloud_mask) / cloud_mask.size`.  It raises nothing: on a zero-sized
mask the division is `0 / 0`, which numpy answers with `nan` (plus a
RuntimeWarning), modelled as `.ok none`. -/
def measure_cloud_cover (m : Mask) : Except NpError NpFloat :=
  .ok (if m.rows * m.cols = 0 then none
       else some (maskSum m / ((m.rows : ℚ) * (m.cols : ℚ))))

/-- The datacube `apply_cloud_mask` builds: `radiance_data.copy()`, then
for every in-range spatial position with `cloud_mask[row, col] == 1` the
slice `masked_data[row, col, :]` is set to 0. -/
def appliedCube (cube : Cube) (mask : Mask) : Cube :=
  ⟨cube.rows, cube.cols, cube.bands, fun r c b =>
    if r < cube.rows ∧ c < cube.cols ∧ mask.data r c = 1
    then 0 else cube.data r c b⟩

/-- `apply_cloud_mask(radiance_data, cloud_mask)`
(cloud_detection.py, lines 182–209).  The loop reads
`cloud_mask[row, col]` for every `row < rows`, `col < cols` of the CUBE;
this raises `IndexError` as soon as some such index falls outside the
mask (the mask being larger than the cube in both dimensions is accepted
silently).  Row and column indices are non-negative, so no wrap-around
arises here. -/
def apply_cloud_mask (cube : Cube) (mask : Mask) : Except NpError Cube :=
  if ∀ r < cube.rows, ∀ c < cube.cols, r < mask.rows ∧ c < mask.cols
  then .ok (appliedCube cube mask)
  else .error .indexError

/-- Number of entries equal to 1 in a mask (the cloud-pixel count). -/
def countOnes (m : Mask) : Nat :=
  ∑ r in Finset.range m.rows, ∑ c in Finset.range m.cols,
    if m.data r c = 1 then 1 else 0

/-- The spec's concrete scenario cube: 2×2×1 with band-0 slice
`[[5, 15], [25, 5]]`. -/
def exCube : Cube :=
  ⟨2, 2, 1, fun r c _ =>
    if r = 0 ∧ c = 0 then 5
    else if r = 0 ∧ c = 1 then 15
    else if r = 1 ∧ c = 0 then 25
    else 5⟩

lemma resolveBand_coe (size b : Nat) (hb : b < size) :
    resolveBand size (b : Int) = some b := by
  simp [resolveBand, Int.ofNat_lt.mpr hb]

lemma bandValue_coe (cube : Cube) (b : Nat) (hb : b < cube.bands) (r c : Nat) :
    bandValue cube (b : Int) r c = cube.data r c b := by
  simp [bandValue, resolveBand_coe _ _ hb]

lemma create_cloud_mask_valid (cube : Cube) (b : Nat) (hb : b < cube.bands)
    (t : ℚ) : create_cloud_mask cube (b : Int) t = .ok (mkMask cube (b : Int) t) := by
  simp [create_cloud_mask, resolveBand_coe _ _ hb]

/-- C1: for a valid band index `b` (`0 ≤ b < bands`), `create_cloud_mask`
returns a 2-D mask with the cube's spatial shape, every entry 0 or 1, and
entry 1 exactly when the pixel's value at band `b` strictly exceeds the
threshold; a pixel equal to the threshold yields 0. -/
theorem create_mask_correct (cube : Cube) (b : Nat) (hb : b < cube.bands)
    (t : ℚ) :
    ∃ m, create_cloud_mask cube (b : Int) t = .ok m ∧
      m.rows = cube.rows ∧ m.cols = cube.cols ∧
      ∀ r < cube.rows, ∀ c < cube.cols,
        (m.data r c = 0 ∨ m.data r c = 1) ∧
        (m.data r c = 1 ↔ cube.data r c b > t) ∧
        (cube.data r c b = t → m.data r c = 0) := by
  refine ⟨mkMask cube (b : Int) t, create_cloud_mask_valid cube b hb t,
    rfl, rfl, ?_⟩
  intro r hr c hc
  simp only [mkMask, bandValue_coe cube b hb]
  by_cases hgt : cube.data r c b > t
  · simp [hr, hc, hgt]
    intro he
    rw [he] at hgt
    exact absurd hgt (lt_irrefl t)
  · simp [hgt]

/-- Witness for C1 at the spec's concrete scenario: band 0 of `exCube`,
threshold 10. -/
theorem create_mask_correct_witness :
    0 < exCube.bands ∧
    ∃ m, create_cloud_mask exCube (0 : Int) (10 : ℚ) = .ok m ∧
      m.rows = exCube.rows ∧ m.cols = exCube.cols ∧
      ∀ r < exCube.rows, ∀ c < exCube.cols,
        (m.data r c = 0 ∨ m.data r c = 1) ∧
        (m.data r c = 1 ↔ exCube.data r c 0 > (10 : ℚ)) ∧
        (exCube.data r c 0 = (10 : ℚ) → m.data r c = 0) :=
  ⟨by decide, create_mask_correct exCube 0 (by decide) 10⟩

/-- The spec's concrete scenario mask `[[0, 1], [1, 0]]` (2×2). -/
def exMask : Mask :=
  ⟨2, 2, fun r c => if (r = 0 ∧ c = 1) ∨ (r = 1 ∧ c = 0) then 1 else 0⟩

lemma apply_cloud_mask_eq_shape (cube : Cube) (mask : Mask)
    (hr : mask.rows = cube.rows) (hc : mask.cols = cube.cols) :
    apply_cloud_mask cube mask = .ok (appliedCube cube mask) := by
  rw [apply_cloud_mask, if_pos]
  intro r hrr c hcc
  exact ⟨hr ▸ hrr, hc ▸ hcc⟩

/-- C2: applying a binary mask of matching spatial shape returns a cube of
the same shape whose bands are all 0 wherever the mask is 1 and unchanged
wherever the mask is 0. -/
theorem apply_mask_correct (cube : Cube) (mask : Mask)
    (hr : mask.rows = cube.rows) (hc : mask.cols = cube.cols)
    (hbin : ∀ r < mask.rows, ∀ c < mask.cols,
      mask.data r c = 0 ∨ mask.data r c = 1) :
    ∃ out, apply_cloud_mask cube mask = .ok out ∧
      out.rows = cube.rows ∧ out.cols = cube.cols ∧ out.bands = cube.bands ∧
      ∀ r < cube.rows, ∀ c < cube.cols, ∀ b < cube.bands,
        (mask.data r c = 1 → out.data r c b = 0) ∧
        (mask.data r c = 0 → out.data r c b = cube.data r c b) := by
  refine ⟨appliedCube cube mask, apply_cloud_mask_eq_shape cube mask hr hc,
    rfl, rfl, rfl, ?_⟩
  intro r hrr c hcc b _
  constructor
  · intro h1
    simp [appliedCube, hrr, hcc, h1]
  · intro h0
    have : mask.data r c ≠ 1 := by rw [h0]; exact zero_ne_one
    simp [appliedCube, this]

/-- Witness for C2: the spec's scenario cube and mask. -/
theorem apply_mask_correct_witness :
    exMask.rows = exCube.rows ∧ exMask.cols = exCube.cols ∧
    (∀ r < exMask.rows, ∀ c < exMask.cols,
      exMask.data r c = 0 ∨ exMask.data r c = 1) ∧
    ∃ out, apply_cloud_mask exCube exMask = .ok out ∧
      out.rows = exCube.rows ∧ out.cols = exCube.cols ∧
      out.bands = exCube.bands ∧
      ∀ r < exCube.rows, ∀ c < exCube.cols, ∀ b < exCube.bands,
        (exMask.data r c = 1 → out.data r c b = 0) ∧
        (exMask.data r c = 0 → out.data r c b = exCube.data r c b) :=
  ⟨rfl, rfl, by decide,
    apply_mask_correct exCube exMask rfl rfl (by decide)⟩

lemma appliedCube_idem (cube : Cube) (mask : Mask) :
    appliedCube (appliedCube cube mask) mask = appliedCube cube mask := by
  ext r c b
  · rfl
  · rfl
  · rfl
  · by_cases h : r < cube.rows ∧ c < cube.cols ∧ mask.data r c = 1
    · simp [appliedCube, h]
    · simp only [appliedCube]
      rw [if_neg h, if_neg h]

/-- C4: masking is idempotent — re-applying the same matching-shape binary
mask to an already-masked cube returns the masked cube unchanged. -/
theorem apply_mask_idempotent (cube : Cube) (mask : Mask)
    (hr : mask.rows = cube.rows) (hc : mask.cols = cube.cols)
    (hbin : ∀ r < mask.rows, ∀ c < mask.cols,
      mask.data r c = 0 ∨ mask.data r c = 1) :
    ∃ out, apply_cloud_mask cube mask = .ok out ∧
      apply_cloud_mask out mask = .ok out := by
  refine ⟨appliedCube cube mask, apply_cloud_mask_eq_shape cube mask hr hc, ?_⟩
  have h2 := apply_cloud_mask_eq_shape (appliedCube cube mask) mask hr hc
  rw [h2, appliedCube_idem]

/-- Witness for C4 at the spec's scenario cube and mask. -/
theorem apply_mask_idempotent_witness :
    exMask.rows = exCube.rows ∧ exMask.cols = exCube.cols ∧
    (∀ r < exMask.rows, ∀ c < exMask.cols,
      exMask.data r c = 0 ∨ exMask.data r c = 1) ∧
    ∃ out, apply_cloud_mask exCube exMask = .ok out ∧
      apply_cloud_mask out exMask = .ok out :=
  ⟨rfl, rfl, by decide,
    apply_mask_idempotent exCube exMask rfl rfl (by decide)⟩

/-- C10: `apply_cloud_mask` zeroes a pixel only when its mask entry equals
exactly 1; any other entry (0, 2, negative, fractional, …) leaves the
pixel's bands unchanged. -/
theorem apply_mask_only_one_zeroes (cube : Cube) (mask : Mask)
    (hr : mask.rows = cube.rows) (hc : mask.cols = cube.cols) :
    ∃ out, apply_cloud_mask cube mask = .ok out ∧
      ∀ r < cube.rows, ∀ c < cube.cols, mask.data r c ≠ 1 →
        ∀ b < cube.bands, out.data r c b = cube.data r c b := by
  refine ⟨appliedCube cube mask, apply_cloud_mask_eq_shape cube mask hr hc, ?_⟩
  intro r _ c _ hne b _
  simp [appliedCube, hne]

/-- Witness for C10: a 1×1×1 cube with a mask entry of 2 (non-binary,
not 1) leaves the pixel unchanged. -/
theorem apply_mask_only_one_zeroes_witness :
    (Mask.rows ⟨1, 1, fun _ _ => 2⟩ = Cube.rows ⟨1, 1, 1, fun _ _ _ => 7⟩) ∧
    (Mask.cols ⟨1, 1, fun _ _ => 2⟩ = Cube.cols ⟨1, 1, 1, fun _ _ _ => 7⟩) ∧
    ∃ out,
      apply_cloud_mask ⟨1, 1, 1, fun _ _ _ => 7⟩ ⟨1, 1, fun _ _ => 2⟩ =
        .ok out ∧
      ∀ r < (1 : Nat), ∀ c < (1 : Nat),
        Mask.data ⟨1, 1, fun _ _ => 2⟩ r c ≠ 1 →
        ∀ b < (1 : Nat),
          out.data r c b = Cube.data ⟨1, 1, 1, fun _ _ _ => 7⟩ r c b :=
  ⟨rfl, rfl,
    apply_mask_only_one_zeroes ⟨1, 1, 1, fun _ _ _ => 7⟩
      ⟨1, 1, fun _ _ => 2⟩ rfl rfl⟩

lemma maskSum_eq_countOnes (m : Mask)
    (hbin : ∀ r < m.rows, ∀ c < m.cols,
      m.data r c = 0 ∨ m.data r c = 1) :
    maskSum m = (countOnes m : ℚ) := by
  unfold maskSum countOnes
  push_cast
  refine Finset.sum_congr rfl fun r hr => Finset.sum_congr rfl fun c hc => ?_
  rcases hbin r (Finset.mem_range.mp hr) c (Finset.mem_range.mp hc) with h | h
  · rw [h]; simp
  · rw [h]; simp

/-- C3: on a non-empty binary mask, `measure_cloud_cover` returns exactly
(number of ones) / (number of entries); in particular exactly 0 on an
all-zero mask and exactly 1 on an all-one mask. -/
theorem measure_cover_ratio (m : Mask) (hne : 0 < m.rows * m.cols)
    (hbin : ∀ r < m.rows, ∀ c < m.cols,
      m.data r c = 0 ∨ m.data r c = 1) :
    measure_cloud_cover m =
      .ok (some ((countOnes m : ℚ) / ((m.rows : ℚ) * (m.cols : ℚ)))) ∧
    ((∀ r < m.rows, ∀ c < m.cols, m.data r c = 0) →
      measure_cloud_cover m = .ok (some 0)) ∧
    ((∀ r < m.rows, ∀ c < m.cols, m.data r c = 1) →
      measure_cloud_cover m = .ok (some 1)) := by
  have hsz : ¬ (m.rows * m.cols = 0) := Nat.pos_iff_ne_zero.mp hne
  have hcast : (m.rows : ℚ) * (m.cols : ℚ) ≠ 0 := by
    have := Nat.mul_ne_zero_iff.mp hsz
    exact mul_ne_zero (Nat.cast_ne_zero.mpr this.1) (Nat.cast_ne_zero.mpr this.2)
  refine ⟨?_, ?_, ?_⟩
  · rw [measure_cloud_cover, if_neg hsz, maskSum_eq_countOnes m hbin]
  · intro h0
    have hz : maskSum m = 0 := by
      refine Finset.sum_eq_zero fun r hr => Finset.sum_eq_zero fun c hc => ?_
      exact h0 r (Finset.mem_range.mp hr) c (Finset.mem_range.mp hc)
    rw [measure_cloud_cover, if_neg hsz, hz, zero_div]
  · intro h1
    have ho : maskSum m = (m.rows : ℚ) * (m.cols : ℚ) := by
      unfold maskSum
      rw [Finset.sum_congr rfl fun r hr => Finset.sum_congr rfl
        fun c hc => h1 r (Finset.mem_range.mp hr) c (Finset.mem_range.mp hc)]
      simp [mul_comm]
    rw [measure_cloud_cover, if_neg hsz, ho, div_self hcast]

/-- Witness for C3 at the spec's scenario mask `[[0, 1], [1, 0]]`. -/
theorem measure_cover_ratio_witness :
    0 < exMask.rows * exMask.cols ∧
    (∀ r < exMask.rows, ∀ c < exMask.cols,
      exMask.data r c = 0 ∨ exMask.data r c = 1) ∧
    (measure_cloud_cover exMask =
      .ok (some ((countOnes exMask : ℚ) /
        ((exMask.rows : ℚ) * (exMask.cols : ℚ)))) ∧
    ((∀ r < exMask.rows, ∀ c < exMask.cols, exMask.data r c = 0) →
      measure_cloud_cover exMask = .ok (some 0)) ∧
    ((∀ r < exMask.rows, ∀ c < exMask.cols, exMask.data r c = 1) →
      measure_cloud_cover exMask = .ok (some 1))) :=
  ⟨by decide, by decide, measure_cover_ratio exMask (by decide) (by decide)⟩

/-- C9 counterexample: on the empty 0×0 mask, `measure_cloud_cover` does
NOT fail — no exception is raised at all (there is no `EmptyInputError`
anywhere in the code); numpy's `0 / 0` yields nan with only a
RuntimeWarning, so the call returns normally with nan. -/
theorem measure_cover_empty_counterexample :
    measure_cloud_cover ⟨0, 0, fun _ _ => 0⟩ = .ok none := rfl

/-- C9 amended: `measure_cloud_cover` never raises: on a zero-sized mask
it returns nan (numpy's 0/0), and on a non-empty mask it returns the
entry sum divided by the entry count. -/
theorem measure_cover_total (m : Mask) :
    (m.rows * m.cols = 0 → measure_cloud_cover m = .ok none) ∧
    (m.rows * m.cols ≠ 0 →
      measure_cloud_cover m =
        .ok (some (maskSum m / ((m.rows : ℚ) * (m.cols : ℚ))))) := by
  constructor
  · intro h
    rw [measure_cloud_cover, if_pos h]
  · intro h
    rw [measure_cloud_cover, if_neg h]

/-- Witness for C9's amended theorem: the empty mask returns nan, the
spec's scenario mask returns its ratio. -/
theorem measure_cover_total_witness :
    measure_cloud_cover ⟨0, 0, fun _ _ => 1⟩ = .ok none ∧
    measure_cloud_cover exMask =
      .ok (some (maskSum exMask / ((exMask.rows : ℚ) * (exMask.cols : ℚ)))) :=
  ⟨(measure_cover_total ⟨0, 0, fun _ _ => 1⟩).1 rfl,
    (measure_cover_total exMask).2 (by decide)⟩

lemma countOnes_mkMask (cube : Cube) (b : Nat) (hb : b < cube.bands)
    (t : ℚ) :
    countOnes (mkMask cube (b : Int) t) =
      ∑ r in Finset.range cube.rows, ∑ c in Finset.range cube.cols,
        if cube.data r c b > t then 1 else 0 := by
  unfold countOnes mkMask
  refine Finset.sum_congr rfl fun r hr => Finset.sum_congr rfl fun c hc => ?_
  dsimp only
  rw [bandValue_coe cube b hb]
  have hr' := Finset.mem_range.mp hr
  have hc' := Finset.mem_range.mp hc
  by_cases hgt : cube.data r c b > t
  · simp [hr', hc', hgt]
  · simp [hgt]

/-- C5: thresholding is antitone in the threshold — for `t1 < t2` and a
valid band, the cloud-pixel count of the mask at `t2` is at most the
count at `t1`. -/
theorem create_mask_antitone (cube : Cube) (b : Nat) (hb : b < cube.bands)
    (t1 t2 : ℚ) (ht : t1 < t2) (m1 m2 : Mask)
    (h1 : create_cloud_mask cube (b : Int) t1 = .ok m1)
    (h2 : create_cloud_mask cube (b : Int) t2 = .ok m2) :
    countOnes m2 ≤ countOnes m1 := by
  rw [create_cloud_mask_valid cube b hb t1] at h1
  rw [create_cloud_mask_valid cube b hb t2] at h2
  injection h1 with h1
  injection h2 with h2
  rw [← h1, ← h2, countOnes_mkMask cube b hb t1, countOnes_mkMask cube b hb t2]
  refine Finset.sum_le_sum fun r _ => Finset.sum_le_sum fun c _ => ?_
  by_cases hgt : cube.data r c b > t2
  · simp [hgt, lt_trans ht hgt]
  · simp only [hgt, if_false]
    exact Nat.zero_le _

/-- Witness for C5: `exCube` at band 0 with thresholds 10 < 20 (cloud
counts 2 and 1 respectively). -/
theorem create_mask_antitone_witness :
    0 < exCube.bands ∧ (10 : ℚ) < 20 ∧
    create_cloud_mask exCube (0 : Int) (10 : ℚ) =
      .ok (mkMask exCube (0 : Int) 10) ∧
    create_cloud_mask exCube (0 : Int) (20 : ℚ) =
      .ok (mkMask exCube (0 : Int) 20) ∧
    countOnes (mkMask exCube (0 : Int) 20) ≤
      countOnes (mkMask exCube (0 : Int) 10) :=
  ⟨by decide, by norm_num,
    create_cloud_mask_valid exCube 0 (by decide) 10,
    create_cloud_mask_valid exCube 0 (by decide) 20,
    create_mask_antitone exCube 0 (by decide) 10 20 (by norm_num) _ _
      (create_cloud_mask_valid exCube 0 (by decide) 10)
      (create_cloud_mask_valid exCube 0 (by decide) 20)⟩

lemma resolveBand_eq_none_iff (size : Nat) (i : Int) :
    resolveBand size i = none ↔ i < -(size : Int) ∨ (size : Int) ≤ i := by
  unfold resolveBand
  split_ifs with h1 h2
  · simp only [reduceCtorEq, false_iff]
    omega
  · simp only [reduceCtorEq, false_iff]
    omega
  · simp only [true_iff]
    omega

/-- C7 counterexample: band `-1` is outside `[0, bands)` on the 2×2×1 cube
`exCube`, yet `create_cloud_mask` does NOT fail: numpy wraps negative
indices (`-1` reads the last band), so the call succeeds and returns the
wrap-around mask.  (No `OutOfRangeError` type exists in the code either.) -/
theorem create_mask_oob_counterexample :
    ¬ (0 ≤ (-1 : Int) ∧ (-1 : Int) < (exCube.bands : Int)) ∧
    create_cloud_mask exCube (-1) (10 : ℚ) =
      .ok (mkMask exCube (-1) 10) :=
  ⟨by decide, rfl⟩

/-- C7 amended: `create_cloud_mask` fails — with numpy's `IndexError`, the
only error the code can raise — exactly when both spatial dimensions are
non-zero (so the loop body runs) and the band index lies outside
`[-bands, bands)`; band indices in `[-bands, 0)` are accepted via numpy's
wrap-around, and on a spatially empty cube no band index ever fails. -/
theorem create_mask_error_iff (cube : Cube) (band : Int) (t : ℚ) :
    create_cloud_mask cube band t = .error .indexError ↔
      0 < cube.rows ∧ 0 < cube.cols ∧
        (band < -(cube.bands : Int) ∨ (cube.bands : Int) ≤ band) := by
  rw [create_cloud_mask]
  split_ifs with h
  · constructor
    · intro _
      exact ⟨Nat.pos_of_ne_zero h.1, Nat.pos_of_ne_zero h.2.1,
        (resolveBand_eq_none_iff _ _).mp h.2.2⟩
    · intro _
      rfl
  · constructor
    · intro hcontra
      exact hcontra.elim
    · rintro ⟨hr, hc, hband⟩
      exact absurd ⟨Nat.pos_iff_ne_zero.mp hr, Nat.pos_iff_ne_zero.mp hc,
        (resolveBand_eq_none_iff _ _).mpr hband⟩ h

/-- A 2×2 all-zero mask, strictly larger than the 1×1 spatial grid of
`smallCube`: its shape differs from the cube's first two dimensions. -/
def bigMask : Mask := ⟨2, 2, fun _ _ => 0⟩

/-- A 1×1×1 cube with the single value 7. -/
def smallCube : Cube := ⟨1, 1, 1, fun _ _ _ => 7⟩

/-- C8 counterexample: `bigMask`'s shape (2×2) differs from `smallCube`'s
spatial shape (1×1), yet `apply_cloud_mask` does NOT fail: the loop only
reads mask positions inside the cube's spatial range, so a mask larger
than the cube in both dimensions is silently accepted.  (No
`ShapeMismatchError` type exists in the code either.) -/
theorem apply_mask_shape_counterexample :
    bigMask.rows ≠ smallCube.rows ∧
    apply_cloud_mask smallCube bigMask =
      .ok (appliedCube smallCube bigMask) :=
  ⟨by decide, rfl⟩

/-- C8 amended: `apply_cloud_mask` fails — with numpy's `IndexError`, the
only error the code can raise — exactly when the cube's spatial grid is
non-empty and the mask is strictly smaller than the cube in some spatial
dimension; a mask at least as large as the cube in both dimensions is
accepted even when the shapes differ. -/
theorem apply_mask_error_iff (cube : Cube) (mask : Mask) :
    apply_cloud_mask cube mask = .error .indexError ↔
      0 < cube.rows ∧ 0 < cube.cols ∧
        (mask.rows < cube.rows ∨ mask.cols < cube.cols) := by
  rw [apply_cloud_mask]
  split_ifs with h
  · constructor
    · intro hcontra
      exact hcontra.elim
    · rintro ⟨hr, hc, hlt | hlt⟩
      · exact absurd (h mask.rows hlt 0 hc).1 (lt_irrefl _)
      · exact absurd (h 0 hr mask.cols hlt).2 (lt_irrefl _)
  · constructor
    · intro _
      push_neg at h
      obtain ⟨r, hr, c, hc, hK⟩ := h
      omega
    · intro _
      rfl

